import Mathlib

/-!
Shallow embedding of
`azurerm/internal/services/synapse/synapse_big_data_pool_resource.go`.

Go pointers are modelled with `Option`; a Go panic (nil type assertion or
nil pointer dereference) is modelled by an `Option`-valued function
returning `none` at "panic". `int32(...)` casts are modelled by `toInt32`
(wrap-around into the signed 32-bit range). Remote calls are modelled by
environments recording each call's outcome, and the CRUD handlers return
the trace of remote actions performed plus their result.
-/

/-- Wrap-around conversion of a Go `int` (arbitrary `Int` here) to `int32`,
modelling the `int32(v["..."].(int))` casts. -/
def toInt32 (n : Int) : Int :=
  (n + 2 ^ 31) % 2 ^ 32 - 2 ^ 31

/-- Signed 32-bit range, the set of values fixed by `toInt32`. -/
def Int32Range (n : Int) : Prop :=
  -(2 ^ 31) ≤ n ∧ n < 2 ^ 31

instance (n : Int) : Decidable (Int32Range n) := by
  unfold Int32Range; infer_instance

/-- `synapse.AutoPauseProperties` (SDK struct): `DelayInMinutes *int32`,
`Enabled *bool`. -/
structure AutoPauseProperties where
  delayInMinutes : Option Int
  enabled : Option Bool
deriving DecidableEq, Repr

/-- `synapse.AutoScaleProperties` (SDK struct): `Enabled *bool`,
`MaxNodeCount *int32`, `MinNodeCount *int32`. -/
structure AutoScaleProperties where
  enabled : Option Bool
  maxNodeCount : Option Int
  minNodeCount : Option Int
deriving DecidableEq, Repr

/-- `synapse.LibraryRequirements` (SDK struct): `Content *string`,
`Filename *string`. -/
structure LibraryRequirements where
  content : Option String
  filename : Option String
deriving DecidableEq, Repr

/-- One `auto_pause` configuration block (`map[string]interface{}` with key
`delay_in_minutes`). -/
structure AutoPauseBlock where
  delay_in_minutes : Int
deriving DecidableEq, Repr

/-- One `auto_scale` configuration block (keys `min_node_count`,
`max_node_count`). -/
structure AutoScaleBlock where
  min_node_count : Int
  max_node_count : Int
deriving DecidableEq, Repr

/-- One `library_requirement` configuration block (keys `content`,
`filename`). -/
structure LibraryBlock where
  content : String
  filename : String
deriving DecidableEq, Repr

/-- `expandArmBigDataPoolAutoPauseProperties`. The Go code returns a non-nil
pointer; a nil first element makes the `input[0].(map[string]interface{})`
assertion panic, modelled as `none`. -/
def expandArmBigDataPoolAutoPauseProperties :
    List (Option AutoPauseBlock) → Option AutoPauseProperties
  | [] => some { delayInMinutes := none, enabled := some false }
  | some v :: _ =>
      some { delayInMinutes := some (toInt32 v.delay_in_minutes)
             enabled := some true }
  | none :: _ => none

/-- `expandArmBigDataPoolAutoScaleProperties`. The guard
`len(input) == 0 || input[0] == nil` makes this total. -/
def expandArmBigDataPoolAutoScaleProperties :
    List (Option AutoScaleBlock) → AutoScaleProperties
  | [] => { enabled := some false, maxNodeCount := none, minNodeCount := none }
  | none :: _ =>
      { enabled := some false, maxNodeCount := none, minNodeCount := none }
  | some v :: _ =>
      { enabled := some true
        maxNodeCount := some (toInt32 v.max_node_count)
        minNodeCount := some (toInt32 v.min_node_count) }

/-- `expandArmBigDataPoolLibraryRequirements`. Returns a nil pointer (inner
`none`) on the empty list; panics (outer `none`) on a nil first element. -/
def expandArmBigDataPoolLibraryRequirements :
    List (Option LibraryBlock) → Option (Option LibraryRequirements)
  | [] => some none
  | some v :: _ =>
      some (some { content := some v.content, filename := some v.filename })
  | none :: _ => none

/-- `flattenArmBigDataPoolAutoPauseProperties`. -/
def flattenArmBigDataPoolAutoPauseProperties :
    Option AutoPauseProperties → List AutoPauseBlock
  | none => []
  | some input =>
      let delayInMinutes := input.delayInMinutes.getD 0
      let enabled := input.enabled.getD false
      if !enabled then []
      else [{ delay_in_minutes := delayInMinutes }]

/-- `flattenArmBigDataPoolAutoScaleProperties`. -/
def flattenArmBigDataPoolAutoScaleProperties :
    Option AutoScaleProperties → List AutoScaleBlock
  | none => []
  | some input =>
      let enabled := input.enabled.getD false
      if !enabled then []
      else [{ min_node_count := input.minNodeCount.getD 0
              max_node_count := input.maxNodeCount.getD 0 }]

/-- `flattenArmBigDataPoolLibraryRequirements`. -/
def flattenArmBigDataPoolLibraryRequirements :
    Option LibraryRequirements → List LibraryBlock
  | none => []
  | some input =>
      [{ content := input.content.getD "", filename := input.filename.getD "" }]

/-- The canonical auto-pause pointer values, exactly the image of
`expandArmBigDataPoolAutoPauseProperties`. -/
def CanonAutoPause (x : Option AutoPauseProperties) : Prop :=
  x = some { delayInMinutes := none, enabled := some false } ∨
    ∃ d, Int32Range d ∧ x = some { delayInMinutes := some d, enabled := some true }

/-- The canonical auto-scale struct values, exactly the image of
`expandArmBigDataPoolAutoScaleProperties`. -/
def CanonAutoScale (s : AutoScaleProperties) : Prop :=
  s = { enabled := some false, maxNodeCount := none, minNodeCount := none } ∨
    ∃ mn mx, Int32Range mn ∧ Int32Range mx ∧
      s = { enabled := some true, maxNodeCount := some mx, minNodeCount := some mn }

/-- The canonical library-requirement pointer values, exactly the inner image
of `expandArmBigDataPoolLibraryRequirements`. -/
def CanonLibrary (x : Option LibraryRequirements) : Prop :=
  x = none ∨ ∃ c f, x = some { content := some c, filename := some f }

theorem toInt32_eq_of_range (n : Int) (h : Int32Range n) : toInt32 n = n := by
  unfold toInt32
  unfold Int32Range at h
  omega

/-- Claim C7: expand of the empty `auto_pause` list and of the empty
`auto_scale` list each return the default-disabled struct (Enabled false and
no other field set), and expand of the empty `library_requirement` list
returns the nil pointer. -/
theorem expand_empty_defaults :
    expandArmBigDataPoolAutoPauseProperties [] =
      some { delayInMinutes := none, enabled := some false } ∧
    expandArmBigDataPoolAutoScaleProperties [] =
      { enabled := some false, maxNodeCount := none, minNodeCount := none } ∧
    expandArmBigDataPoolLibraryRequirements [] = some none :=
  ⟨rfl, rfl, rfl⟩

/-- Claim C10: the auto-scale expand is guarded against a nil first element
and returns the same disabled struct as on the empty list, while the
auto-pause and library-requirement expands panic (modelled as `none`) on a
nil first element. -/
theorem expand_nil_element_behaviour :
    expandArmBigDataPoolAutoScaleProperties [none] =
      expandArmBigDataPoolAutoScaleProperties [] ∧
    expandArmBigDataPoolAutoScaleProperties [none] =
      { enabled := some false, maxNodeCount := none, minNodeCount := none } ∧
    expandArmBigDataPoolAutoPauseProperties [none] = none ∧
    expandArmBigDataPoolLibraryRequirements [none] = none :=
  ⟨rfl, rfl, rfl, rfl⟩

/-- Claim C9: flatten of an auto-pause or auto-scale struct whose Enabled is
nil or points to false is the empty list, whatever DelayInMinutes,
MinNodeCount or MaxNodeCount hold. -/
theorem flatten_disabled_empty :
    (∀ p : AutoPauseProperties, p.enabled = none ∨ p.enabled = some false →
      flattenArmBigDataPoolAutoPauseProperties (some p) = []) ∧
    (∀ s : AutoScaleProperties, s.enabled = none ∨ s.enabled = some false →
      flattenArmBigDataPoolAutoScaleProperties (some s) = []) := by
  constructor
  · intro p hp
    rcases hp with h | h <;>
      simp [flattenArmBigDataPoolAutoPauseProperties, h]
  · intro s hs
    rcases hs with h | h <;>
      simp [flattenArmBigDataPoolAutoScaleProperties, h]

/-- Witness for `flatten_disabled_empty` at concrete disabled structs that
carry delay and node-count values. -/
theorem flatten_disabled_empty_witness :
    flattenArmBigDataPoolAutoPauseProperties
      (some { delayInMinutes := some 99, enabled := some false }) = [] ∧
    flattenArmBigDataPoolAutoScaleProperties
      (some { enabled := none, maxNodeCount := some 10, minNodeCount := some 3 }) =
      [] :=
  ⟨flatten_disabled_empty.1 _ (Or.inr rfl), flatten_disabled_empty.2 _ (Or.inl rfl)⟩

/-- Claim C1, counterexample: the round trip is not the identity on every
remote value; at the nil auto-pause pointer (an explicitly claimed case)
expand after flatten yields the disabled struct, not nil. -/
theorem roundtrip_not_universal :
    expandArmBigDataPoolAutoPauseProperties
      ((flattenArmBigDataPoolAutoPauseProperties none).map some) ≠
      (none : Option AutoPauseProperties) := by
  decide

/-- Claim C1, amended: expand after flatten is the identity on the canonical
remote values, exactly those expand itself produces: a disabled auto-pause or
auto-scale struct with no other field set, an enabled one with all its fields
set to in-range values, and a nil or fully populated library requirement. -/
theorem roundtrip_canonical :
    (∀ x, CanonAutoPause x →
      expandArmBigDataPoolAutoPauseProperties
        ((flattenArmBigDataPoolAutoPauseProperties x).map some) = x) ∧
    (∀ s, CanonAutoScale s →
      expandArmBigDataPoolAutoScaleProperties
        ((flattenArmBigDataPoolAutoScaleProperties (some s)).map some) = s) ∧
    (∀ x, CanonLibrary x →
      expandArmBigDataPoolLibraryRequirements
        ((flattenArmBigDataPoolLibraryRequirements x).map some) = some x) := by
  refine ⟨?_, ?_, ?_⟩
  · intro x hx
    rcases hx with rfl | ⟨d, hd, rfl⟩
    · rfl
    · simp [flattenArmBigDataPoolAutoPauseProperties,
        expandArmBigDataPoolAutoPauseProperties, toInt32_eq_of_range d hd]
  · intro s hs
    rcases hs with rfl | ⟨mn, mx, hmn, hmx, rfl⟩
    · rfl
    · simp [flattenArmBigDataPoolAutoScaleProperties,
        expandArmBigDataPoolAutoScaleProperties,
        toInt32_eq_of_range mn hmn, toInt32_eq_of_range mx hmx]
  · intro x hx
    rcases hx with rfl | ⟨c, f, rfl⟩ <;> rfl

/-- Witness for `roundtrip_canonical` at a concrete enabled auto-pause
value. -/
theorem roundtrip_canonical_witness :
    expandArmBigDataPoolAutoPauseProperties
      ((flattenArmBigDataPoolAutoPauseProperties
        (some { delayInMinutes := some 60, enabled := some true })).map some) =
      some { delayInMinutes := some 60, enabled := some true } :=
  roundtrip_canonical.1 _ (Or.inr ⟨60, by decide, rfl⟩)

/-- `parse.SynapseBigDataPoolID` result: workspace resource group, workspace
name, pool name, plus `id.Workspace.String()` as stored by Read. -/
structure SynapseId where
  resourceGroup : String
  workspaceName : String
  name : String
  workspaceIdString : String
deriving DecidableEq, Repr

/-- `synapse.BigDataPoolResourceProperties`, the fields this file touches. -/
structure BigDataPoolResourceProperties where
  autoPause : Option AutoPauseProperties
  autoScale : Option AutoScaleProperties
  defaultSparkLogFolder : Option String
  libraryRequirements : Option LibraryRequirements
  nodeSize : String
  nodeSizeFamily : String
  sparkEventsFolder : Option String
  sparkVersion : Option String
  nodeCount : Option Int
deriving DecidableEq, Repr

/-- Outcome of one `client.Get` call: the returned error (with whether the
HTTP response was a not-found), and the body fields the code reads. -/
structure GetResponse where
  err : Bool
  notFound : Bool
  id : Option String
  properties : Option BigDataPoolResourceProperties
  tags : List (String × String)
deriving DecidableEq, Repr

/-- A value stored by a `d.Set` call. -/
inductive FieldVal where
  | str (s : String)
  | optStr (s : Option String)
  | optInt (n : Option Int)
  | pauseList (l : List AutoPauseBlock)
  | scaleList (l : List AutoScaleBlock)
  | libList (l : List LibraryBlock)
  | tagsVal (t : List (String × String))
deriving DecidableEq, Repr

/-- The `d.Set` calls a successful Read performs, in source order. -/
def readSets (id : SynapseId) (resp : GetResponse) : List (String × FieldVal) :=
  [("name", .str id.name),
   ("synapse_workspace_id", .str id.workspaceIdString)] ++
  (match resp.properties with
   | none => []
   | some props =>
      [("auto_pause",
          .pauseList (flattenArmBigDataPoolAutoPauseProperties props.autoPause)),
       ("auto_scale",
          .scaleList (flattenArmBigDataPoolAutoScaleProperties props.autoScale)),
       ("library_requirement",
          .libList (flattenArmBigDataPoolLibraryRequirements props.libraryRequirements)),
       ("node_count", .optInt props.nodeCount),
       ("node_size", .str props.nodeSize),
       ("node_size_family", .str props.nodeSizeFamily),
       ("spark_version", .optStr props.sparkVersion)]) ++
  [("tags", .tagsVal resp.tags)]

/-- Result of a Read run: the resource id after the run, whether an error was
returned, and the fields set. -/
structure ReadResult where
  idAfter : String
  err : Bool
  sets : List (String × FieldVal)
deriving DecidableEq, Repr

/-- `resourceArmSynapseBigDataPoolRead`, over the current id, its parse
result, and the remote Get outcome. -/
def resourceArmSynapseBigDataPoolRead (currentId : String)
    (parsed : Option SynapseId) (get : GetResponse) : ReadResult :=
  match parsed with
  | none => { idAfter := currentId, err := true, sets := [] }
  | some id =>
      if get.err then
        if get.notFound then { idAfter := "", err := false, sets := [] }
        else { idAfter := currentId, err := true, sets := [] }
      else { idAfter := currentId, err := false, sets := readSets id get }

/-- The field names declared in the schema of
`resourceArmSynapseBigDataPool`. -/
def schemaFields : List String :=
  ["name", "synapse_workspace_id", "node_size_family", "node_size",
   "node_count", "auto_scale", "auto_pause", "spark_events_folder",
   "spark_log_folder", "library_requirement", "spark_version", "tags"]

/-- The flat configuration as Create/Update reads it from `d.Get`. -/
structure Config where
  name : String
  synapse_workspace_id : String
  node_size_family : String
  node_size : String
  node_count : Int
  auto_scale : List (Option AutoScaleBlock)
  auto_pause : List (Option AutoPauseBlock)
  spark_events_folder : String
  spark_log_folder : String
  library_requirement : List (Option LibraryBlock)
  spark_version : String
  tags : List (String × String)
deriving DecidableEq, Repr

/-- `synapse.BigDataPoolResourceInfo` as Create/Update builds it. -/
structure BigDataPoolInfo where
  location : Option String
  autoPause : Option AutoPauseProperties
  autoScale : Option AutoScaleProperties
  defaultSparkLogFolder : Option String
  libraryRequirements : Option LibraryRequirements
  nodeSize : String
  nodeSizeFamily : String
  sparkEventsFolder : Option String
  sparkVersion : Option String
  nodeCount : Option Int
  tags : List (String × String)
deriving DecidableEq, Repr

/-- Building the payload (lines 188-205). `none` models a panic: a nil
element in `auto_pause` or `library_requirement`, or (impossibly, since
expand always sets it) a nil `autoScale.Enabled` at the
`!*autoScale.Enabled` dereference. -/
def buildBigDataPoolInfo (cfg : Config) (location : Option String) :
    Option BigDataPoolInfo :=
  let autoScale := expandArmBigDataPoolAutoScaleProperties cfg.auto_scale
  match expandArmBigDataPoolAutoPauseProperties cfg.auto_pause,
        expandArmBigDataPoolLibraryRequirements cfg.library_requirement with
  | some autoPause, some libraryRequirements =>
      match autoScale.enabled with
      | some en =>
          some { location
                 autoPause := some autoPause
                 autoScale := some autoScale
                 defaultSparkLogFolder := some cfg.spark_log_folder
                 libraryRequirements
                 nodeSize := cfg.node_size
                 nodeSizeFamily := cfg.node_size_family
                 sparkEventsFolder := some cfg.spark_events_folder
                 sparkVersion := some cfg.spark_version
                 nodeCount := if !en then some (toInt32 cfg.node_count) else none
                 tags := cfg.tags }
      | none => none
  | _, _ => none

/-- One remote-facing action of a CRUD handler, in the order performed. -/
inductive RemoteAction where
  | getExisting
  | getWorkspace
  | submitCreate (payload : BigDataPoolInfo)
  | waitCreate
  | finalGet
  | setId (s : String)
  | readAfter
  | submitDelete
  | waitDelete
deriving DecidableEq, Repr

/-- Outcomes of the remote calls Create/Update makes, in call order. -/
structure CreateEnv where
  isNew : Bool
  existing : GetResponse
  workspaceErr : Bool
  workspaceLocation : Option String
  createErr : Bool
  waitErr : Bool
  finalGet : GetResponse
deriving DecidableEq, Repr

/-- Result of a Create/Update run. -/
inductive CUOutcome where
  | panic
  | err
  | success (storedId : String)
deriving DecidableEq, Repr

/-- Create/Update from the workspace lookup on (lines 183-226): build the
payload, submit, wait, re-read, store the id, then Read. -/
def createUpdateAfterCheck (cfg : Config) (env : CreateEnv) :
    List RemoteAction × CUOutcome :=
  if env.workspaceErr then ([.getWorkspace], .err)
  else
    match buildBigDataPoolInfo cfg env.workspaceLocation with
    | none => ([.getWorkspace], .panic)
    | some payload =>
        if env.createErr then ([.getWorkspace, .submitCreate payload], .err)
        else if env.waitErr then
          ([.getWorkspace, .submitCreate payload, .waitCreate], .err)
        else if env.finalGet.err then
          ([.getWorkspace, .submitCreate payload, .waitCreate, .finalGet], .err)
        else
          match env.finalGet.id with
          | none =>
              ([.getWorkspace, .submitCreate payload, .waitCreate, .finalGet],
               .err)
          | some s =>
              if s = "" then
                ([.getWorkspace, .submitCreate payload, .waitCreate, .finalGet],
                 .err)
              else
                ([.getWorkspace, .submitCreate payload, .waitCreate, .finalGet,
                  .setId s, .readAfter],
                 .success s)

/-- `resourceArmSynapseBigDataPoolCreateUpdate` (lines 162-227): on a new
resource, first Get the resource and fail if it already exists. -/
def resourceArmSynapseBigDataPoolCreateUpdate (cfg : Config)
    (env : CreateEnv) : List RemoteAction × CUOutcome :=
  if env.isNew then
    if env.existing.err ∧ ¬ env.existing.notFound = true then
      ([.getExisting], .err)
    else
      match env.existing.id with
      | some s =>
          if s ≠ "" then ([.getExisting], .err)
          else
            let r := createUpdateAfterCheck cfg env
            (.getExisting :: r.1, r.2)
      | none =>
          let r := createUpdateAfterCheck cfg env
          (.getExisting :: r.1, r.2)
  else createUpdateAfterCheck cfg env

/-- `resourceArmSynapseBigDataPoolDelete` (lines 268-287): parse the id,
submit the delete, wait. The Bool result is whether an error was returned. -/
def resourceArmSynapseBigDataPoolDelete (parsed : Option SynapseId)
    (deleteErr : Bool) (waitErr : Bool) : List RemoteAction × Bool :=
  match parsed with
  | none => ([], true)
  | some _ =>
      if deleteErr then ([.submitDelete], true)
      else if waitErr then ([.submitDelete, .waitDelete], true)
      else ([.submitDelete, .waitDelete], false)

/-- Claim C3: a not-found Get failure makes Read clear the id and return no
error; any other Get failure makes Read return an error and leave the id
unchanged. -/
theorem read_notfound_clears_else_errors (cur : String) (id : SynapseId)
    (g : GetResponse) :
    (g.err = true → g.notFound = true →
      resourceArmSynapseBigDataPoolRead cur (some id) g =
        { idAfter := "", err := false, sets := [] }) ∧
    (g.err = true → g.notFound = false →
      (resourceArmSynapseBigDataPoolRead cur (some id) g).err = true ∧
      (resourceArmSynapseBigDataPoolRead cur (some id) g).idAfter = cur) := by
  constructor <;> intro he hn <;>
    simp [resourceArmSynapseBigDataPoolRead, he, hn]

/-- Witness for `read_notfound_clears_else_errors`: a not-found failure and a
non-not-found failure at concrete inputs. -/
theorem read_notfound_clears_else_errors_witness :
    resourceArmSynapseBigDataPoolRead "oldId"
      (some { resourceGroup := "rg", workspaceName := "ws", name := "pool",
              workspaceIdString := "wsid" })
      { err := true, notFound := true, id := none, properties := none,
        tags := [] } =
      { idAfter := "", err := false, sets := [] } ∧
    (resourceArmSynapseBigDataPoolRead "oldId"
      (some { resourceGroup := "rg", workspaceName := "ws", name := "pool",
              workspaceIdString := "wsid" })
      { err := true, notFound := false, id := none, properties := none,
        tags := [] }).err = true :=
  ⟨(read_notfound_clears_else_errors "oldId" _ _).1 rfl rfl,
   ((read_notfound_clears_else_errors "oldId" _ _).2 rfl rfl).1⟩

/-- Claim C2 evidence: `spark_events_folder` and `spark_log_folder` are
declared schema fields, yet no successful Read ever sets them: the keys Read
sets never include them, whatever the response holds. -/
theorem read_omits_spark_folders (cur : String) (id : SynapseId)
    (g : GetResponse) (hg : g.err = false) :
    "spark_events_folder" ∈ schemaFields ∧
    "spark_log_folder" ∈ schemaFields ∧
    (resourceArmSynapseBigDataPoolRead cur (some id) g).err = false ∧
    "spark_events_folder" ∉
      ((resourceArmSynapseBigDataPoolRead cur (some id) g).sets.map Prod.fst) ∧
    "spark_log_folder" ∉
      ((resourceArmSynapseBigDataPoolRead cur (some id) g).sets.map Prod.fst) := by
  refine ⟨by decide, by decide, ?_, ?_, ?_⟩ <;>
    cases hp : g.properties <;>
      simp [resourceArmSynapseBigDataPoolRead, hg, readSets, hp]

/-- Witness for `read_omits_spark_folders` at a successful Get whose
properties carry a custom spark events folder. -/
theorem read_omits_spark_folders_witness :
    "spark_events_folder" ∉
      ((resourceArmSynapseBigDataPoolRead "someId"
        (some { resourceGroup := "rg", workspaceName := "ws", name := "pool",
                workspaceIdString := "wsid" })
        { err := false, notFound := false, id := some "someId",
          properties := some
            { autoPause := none, autoScale := none,
              defaultSparkLogFolder := some "/custom-logs",
              libraryRequirements := none, nodeSize := "Small",
              nodeSizeFamily := "MemoryOptimized",
              sparkEventsFolder := some "/custom-events",
              sparkVersion := some "2.4", nodeCount := some 4 },
          tags := [] }).sets.map Prod.fst) :=
  (read_omits_spark_folders "someId" _ _ rfl).2.2.2.1

/-- Claim C4: on a new resource, a preliminary Get returning a non-nil,
non-empty ID makes Create/Update error without submitting a write; a
preliminary Get reporting not-found (with the zero-value nil-or-empty ID)
lets it proceed to build and submit the payload. -/
theorem createupdate_existence_check (cfg : Config) (env : CreateEnv) :
    (∀ s, env.isNew = true → env.existing.id = some s → s ≠ "" →
      (resourceArmSynapseBigDataPoolCreateUpdate cfg env).2 = .err ∧
      ∀ p, RemoteAction.submitCreate p ∉
        (resourceArmSynapseBigDataPoolCreateUpdate cfg env).1) ∧
    (env.isNew = true → env.existing.err = true → env.existing.notFound = true →
      (env.existing.id = none ∨ env.existing.id = some "") →
      env.workspaceErr = false →
      ∀ p, buildBigDataPoolInfo cfg env.workspaceLocation = some p →
      RemoteAction.submitCreate p ∈
        (resourceArmSynapseBigDataPoolCreateUpdate cfg env).1) := by
  constructor
  · intro s hnew hid hs
    simp [resourceArmSynapseBigDataPoolCreateUpdate, hnew, hid, hs]
  · intro hnew herr hnf hid hw p hb
    rcases hid with hid | hid <;>
      · simp only [resourceArmSynapseBigDataPoolCreateUpdate, hnew, herr, hnf,
          hid, createUpdateAfterCheck, hw, hb]
        repeat' split
        all_goals simp_all

/-- A concrete fixed-node-count configuration used by witnesses. -/
def sampleConfig : Config :=
  { name := "pool", synapse_workspace_id := "wsid",
    node_size_family := "MemoryOptimized", node_size := "Small",
    node_count := 4, auto_scale := [], auto_pause := [],
    spark_events_folder := "/events", spark_log_folder := "/logs",
    library_requirement := [], spark_version := "2.4", tags := [] }

/-- The payload `sampleConfig` builds at location westeurope. -/
def samplePayload : BigDataPoolInfo :=
  { location := some "westeurope",
    autoPause := some { delayInMinutes := none, enabled := some false },
    autoScale := some
      { enabled := some false, maxNodeCount := none, minNodeCount := none },
    defaultSparkLogFolder := some "/logs", libraryRequirements := none,
    nodeSize := "Small", nodeSizeFamily := "MemoryOptimized",
    sparkEventsFolder := some "/events", sparkVersion := some "2.4",
    nodeCount := some 4, tags := [] }

/-- Witness for `createupdate_existence_check`: an existing non-empty ID
makes Create error; a not-found preliminary Get lets the payload reach the
write. -/
theorem createupdate_existence_check_witness :
    (resourceArmSynapseBigDataPoolCreateUpdate sampleConfig
      { isNew := true,
        existing := { err := false, notFound := false,
                      id := some "already-there", properties := none,
                      tags := [] },
        workspaceErr := false, workspaceLocation := some "westeurope",
        createErr := false, waitErr := false,
        finalGet := { err := false, notFound := false, id := some "new-id",
                      properties := none, tags := [] } }).2 = .err ∧
    RemoteAction.submitCreate samplePayload ∈
      (resourceArmSynapseBigDataPoolCreateUpdate sampleConfig
        { isNew := true,
          existing := { err := true, notFound := true, id := none,
                        properties := none, tags := [] },
          workspaceErr := false, workspaceLocation := some "westeurope",
          createErr := false, waitErr := false,
          finalGet := { err := false, notFound := false, id := some "new-id",
                        properties := none, tags := [] } }).1 :=
  ⟨((createupdate_existence_check _ _).1 "already-there" rfl rfl
      (by decide)).1,
   (createupdate_existence_check _ _).2 rfl rfl rfl (Or.inl rfl) rfl
     samplePayload (by decide)⟩

/-- Claim C5: for a schema-valid `auto_scale` list (empty or one non-nil
block), the submitted payload sets NodeCount exactly when the list is empty,
equivalently when the expanded auto-scale struct has Enabled false, and the
payload carries that expanded struct. -/
theorem payload_nodecount_iff_autoscale (cfg : Config) (loc : Option String)
    (p : BigDataPoolInfo)
    (hshape : cfg.auto_scale = [] ∨ ∃ b, cfg.auto_scale = [some b])
    (hb : buildBigDataPoolInfo cfg loc = some p) :
    (p.nodeCount.isSome = true ↔ cfg.auto_scale = []) ∧
    (p.nodeCount.isSome = true ↔
      (expandArmBigDataPoolAutoScaleProperties cfg.auto_scale).enabled =
        some false) ∧
    p.autoScale = some (expandArmBigDataPoolAutoScaleProperties cfg.auto_scale) := by
  rcases hpause : expandArmBigDataPoolAutoPauseProperties cfg.auto_pause with
    _ | ap <;>
  rcases hlib : expandArmBigDataPoolLibraryRequirements cfg.library_requirement
    with _ | lr <;>
  rcases hshape with h | ⟨b, h⟩ <;>
    simp_all [buildBigDataPoolInfo, h,
      expandArmBigDataPoolAutoScaleProperties] <;>
  simp [← hb]

/-- Witness for `payload_nodecount_iff_autoscale` at `sampleConfig` (no
auto-scale block, so NodeCount is set). -/
theorem payload_nodecount_iff_autoscale_witness :
    (samplePayload.nodeCount.isSome = true ↔ sampleConfig.auto_scale = []) ∧
    (samplePayload.nodeCount.isSome = true ↔
      (expandArmBigDataPoolAutoScaleProperties sampleConfig.auto_scale).enabled =
        some false) ∧
    samplePayload.autoScale =
      some (expandArmBigDataPoolAutoScaleProperties sampleConfig.auto_scale) :=
  payload_nodecount_iff_autoscale sampleConfig (some "westeurope")
    samplePayload (Or.inl rfl) (by decide)

/-- The run gets past the new-resource existence check (lines 171-181). -/
def PassesExistCheck (env : CreateEnv) : Prop :=
  env.isNew = false ∨
    (¬(env.existing.err = true ∧ env.existing.notFound = false) ∧
      (env.existing.id = none ∨ env.existing.id = some ""))

/-- Claim C6: when the write and the wait succeed, Create/Update re-reads the
resource and stores the re-read ID exactly when it is non-nil and non-empty;
a nil or empty re-read ID yields an error and no stored identifier. -/
theorem createupdate_stores_reread_id (cfg : Config) (env : CreateEnv)
    (p : BigDataPoolInfo) (hcheck : PassesExistCheck env)
    (hw : env.workspaceErr = false)
    (hb : buildBigDataPoolInfo cfg env.workspaceLocation = some p)
    (hc : env.createErr = false) (hwait : env.waitErr = false)
    (hfe : env.finalGet.err = false) :
    RemoteAction.finalGet ∈ (resourceArmSynapseBigDataPoolCreateUpdate cfg env).1 ∧
    (∀ s, env.finalGet.id = some s → s ≠ "" →
      (resourceArmSynapseBigDataPoolCreateUpdate cfg env).2 = .success s ∧
      RemoteAction.setId s ∈ (resourceArmSynapseBigDataPoolCreateUpdate cfg env).1) ∧
    ((env.finalGet.id = none ∨ env.finalGet.id = some "") →
      (resourceArmSynapseBigDataPoolCreateUpdate cfg env).2 = .err ∧
      ∀ t, RemoteAction.setId t ∉ (resourceArmSynapseBigDataPoolCreateUpdate cfg env).1) := by
  have hAfter :
      (resourceArmSynapseBigDataPoolCreateUpdate cfg env).1 =
        (createUpdateAfterCheck cfg env).1 ∨
      (resourceArmSynapseBigDataPoolCreateUpdate cfg env).1 =
        .getExisting :: (createUpdateAfterCheck cfg env).1 := by
    rcases hcheck with h | ⟨h1, h2⟩
    · exact Or.inl (by simp [resourceArmSynapseBigDataPoolCreateUpdate, h])
    · rcases hnew : env.isNew with _ | _
      · exact Or.inl (by simp [resourceArmSynapseBigDataPoolCreateUpdate, hnew])
      · rcases h2 with h2 | h2 <;>
          exact Or.inr
            (by simp [resourceArmSynapseBigDataPoolCreateUpdate, hnew, h1, h2])
  have hOut :
      (resourceArmSynapseBigDataPoolCreateUpdate cfg env).2 =
        (createUpdateAfterCheck cfg env).2 := by
    rcases hcheck with h | ⟨h1, h2⟩
    · simp [resourceArmSynapseBigDataPoolCreateUpdate, h]
    · rcases hnew : env.isNew with _ | _
      · simp [resourceArmSynapseBigDataPoolCreateUpdate, hnew]
      · rcases h2 with h2 | h2 <;>
          simp [resourceArmSynapseBigDataPoolCreateUpdate, hnew, h1, h2]
  refine ⟨?_, ?_, ?_⟩
  · have : RemoteAction.finalGet ∈ (createUpdateAfterCheck cfg env).1 := by
      simp only [createUpdateAfterCheck, hw, hb, hc, hwait, hfe]
      repeat' split
      all_goals simp_all
    rcases hAfter with h | h <;> simp [h, this]
  · intro s hs hns
    have h2 : (createUpdateAfterCheck cfg env).2 = .success s := by
      simp [createUpdateAfterCheck, hw, hb, hc, hwait, hfe, hs, hns]
    have h1 : RemoteAction.setId s ∈ (createUpdateAfterCheck cfg env).1 := by
      simp [createUpdateAfterCheck, hw, hb, hc, hwait, hfe, hs, hns]
    rcases hAfter with h | h <;> simp [h, hOut, h1, h2]
  · intro hid
    have h2 : (createUpdateAfterCheck cfg env).2 = .err := by
      rcases hid with hid | hid <;>
        simp [createUpdateAfterCheck, hw, hb, hc, hwait, hfe, hid]
    have h1 : ∀ t, RemoteAction.setId t ∉ (createUpdateAfterCheck cfg env).1 := by
      intro t
      rcases hid with hid | hid <;>
        simp [createUpdateAfterCheck, hw, hb, hc, hwait, hfe, hid]
    rcases hAfter with h | h <;> simp [h, hOut, h2] <;> intro t <;>
      simp [h1 t]

/-- A concrete environment in which every remote call of an update run
succeeds and the re-read returns a usable ID. -/
def sampleEnvSuccess : CreateEnv :=
  { isNew := false,
    existing := { err := false, notFound := false, id := none,
                  properties := none, tags := [] },
    workspaceErr := false, workspaceLocation := some "westeurope",
    createErr := false, waitErr := false,
    finalGet := { err := false, notFound := false, id := some "new-id",
                  properties := none, tags := [] } }

/-- Witness for `createupdate_stores_reread_id`: the fully successful run
stores the re-read ID. -/
theorem createupdate_stores_reread_id_witness :
    (resourceArmSynapseBigDataPoolCreateUpdate sampleConfig
      sampleEnvSuccess).2 = .success "new-id" ∧
    RemoteAction.setId "new-id" ∈
      (resourceArmSynapseBigDataPoolCreateUpdate sampleConfig
        sampleEnvSuccess).1 :=
  (createupdate_stores_reread_id sampleConfig sampleEnvSuccess samplePayload
    (Or.inl rfl) rfl (by decide) rfl rfl rfl).2.1 "new-id" rfl (by decide)

/-- Claim C8: Delete returns no error exactly when the id parses, the delete
submission succeeds and the wait succeeds; a successful run's trace is the
submission followed by the wait. -/
theorem delete_err_iff (parsed : Option SynapseId) (de we : Bool) :
    ((resourceArmSynapseBigDataPoolDelete parsed de we).2 = false ↔
      parsed.isSome = true ∧ de = false ∧ we = false) ∧
    ((resourceArmSynapseBigDataPoolDelete parsed de we).2 = false →
      (resourceArmSynapseBigDataPoolDelete parsed de we).1 =
        [.submitDelete, .waitDelete]) := by
  cases parsed <;> cases de <;> cases we <;>
    simp [resourceArmSynapseBigDataPoolDelete]

/-- Witness for `delete_err_iff`: a successful delete run at concrete
inputs. -/
theorem delete_err_iff_witness :
    (resourceArmSynapseBigDataPoolDelete
      (some { resourceGroup := "rg", workspaceName := "ws", name := "pool",
              workspaceIdString := "wsid" }) false false).1 =
      [.submitDelete, .waitDelete] :=
  (delete_err_iff _ false false).2 rfl
